import Mathlib

/-!
Verification development for the job-nova backend.

This file gives a shallow embedding, in Lean, of the session-lifecycle and
fan-out notification core of the backend (`app/websocket.py`,
`app/routers/avatar.py`) together with the job-recommendation logic
(`app/services/job_service.py`), and proves properties of the embedded
definitions.

Python dictionaries (`Dict[str, V]`) are embedded as insertion-ordered
association lists with unique keys (`List (String × V)`); Python sets of
WebSocket channels are embedded as duplicate-free `List Nat`, a channel
being identified by a numeric id.  Whether a send on a channel raises is
modelled by a predicate `fails : Nat → Bool` supplied to the broadcast
operation.  Python floats appearing in the job data are exact decimal
values and are embedded as rationals.
-/

namespace JobNova

/-! ### Python `dict` as an insertion-ordered association list -/

/-- Lookup in a Python dict: `m.get(k)` / `m[k]`. -/
def mapGet {α : Type} : List (String × α) → String → Option α
  | [], _ => Option.none
  | (k', v) :: rest, k => if k' = k then some v else mapGet rest k

/-- Assignment in a Python dict: `m[k] = v`.  If the key is present its value
is replaced in place (Python dicts keep the original insertion position);
otherwise the pair is appended at the end. -/
def mapSet {α : Type} : List (String × α) → String → α → List (String × α)
  | [], k, v => [(k, v)]
  | (k', v') :: rest, k, v =>
    if k' = k then (k, v) :: rest else (k', v') :: mapSet rest k v

/-- Deletion in a Python dict: `del m[k]`. -/
def mapDel {α : Type} : List (String × α) → String → List (String × α)
  | [], _ => []
  | (k', v') :: rest, k => if k' = k then rest else (k', v') :: mapDel rest k

theorem mapGet_mapSet_self {α : Type} (m : List (String × α)) (k : String) (v : α) :
    mapGet (mapSet m k v) k = some v := by
  induction m with
  | nil => simp [mapGet, mapSet]
  | cons p rest ih =>
    obtain ⟨k', v'⟩ := p
    by_cases h : k' = k
    · simp [mapSet, mapGet, h]
    · simp [mapSet, mapGet, h, ih]

theorem mapGet_mapSet_ne {α : Type} (m : List (String × α)) (k k' : String) (v : α)
    (h : k' ≠ k) : mapGet (mapSet m k v) k' = mapGet m k' := by
  induction m with
  | nil => simp [mapGet, mapSet, Ne.symm h]
  | cons p rest ih =>
    obtain ⟨q, w⟩ := p
    by_cases hq : q = k
    · subst hq
      simp [mapSet, mapGet, Ne.symm h]
    · simp [mapSet, mapGet, hq, ih]

theorem mapGet_some_mem_keys {α : Type} {m : List (String × α)} {k : String} {v : α}
    (h : mapGet m k = some v) : k ∈ m.map Prod.fst := by
  induction m with
  | nil => simp [mapGet] at h
  | cons p rest ih =>
    obtain ⟨q, w⟩ := p
    by_cases hq : q = k
    · simp [hq]
    · simp only [mapGet, hq, if_false] at h
      simp [ih h]

theorem mapGet_mapDel_self {α : Type} (m : List (String × α)) (k : String)
    (hm : (m.map Prod.fst).Nodup) : mapGet (mapDel m k) k = Option.none := by
  induction m with
  | nil => simp [mapDel, mapGet]
  | cons p rest ih =>
    obtain ⟨q, w⟩ := p
    simp only [List.map_cons, List.nodup_cons] at hm
    by_cases hq : q = k
    · subst hq
      have hdel : mapDel ((q, w) :: rest) q = rest := by simp [mapDel]
      rw [hdel]
      cases hget : mapGet rest q with
      | none => rfl
      | some v => exact absurd (mapGet_some_mem_keys hget) hm.1
    · simp [mapDel, mapGet, hq, ih hm.2]

theorem mapGet_mapDel_ne {α : Type} (m : List (String × α)) (k k' : String)
    (h : k' ≠ k) : mapGet (mapDel m k) k' = mapGet m k' := by
  induction m with
  | nil => simp [mapDel, mapGet]
  | cons p rest ih =>
    obtain ⟨q, w⟩ := p
    by_cases hq : q = k
    · subst hq
      simp [mapDel, mapGet, Ne.symm h]
    · simp [mapDel, mapGet, hq, ih]

/-! ### Values stored in session records and events -/

/-- A JSON-ish Python value as it appears in the session dictionaries:
strings, integers, or `None` (the result of a missed `dict.get`). -/
inductive PyVal where
  | str : String → PyVal
  | int : Int → PyVal
  | nil : PyVal
deriving DecidableEq, Repr

/-- A session record / event data dictionary. -/
abbrev PyDict := List (String × PyVal)

/-- The message built by `update_session_status` and sent over a WebSocket:
`{"type": ..., "sessionId": ..., "status": ..., "data": ...}`. -/
structure Event where
  type : String
  sessionId : String
  status : String
  data : PyDict
deriving DecidableEq, Repr

/-! ### `ConnectionManager` (`app/websocket.py`)

WebSocket channels are identified by numeric ids (`Nat`); a session's set of
channels (a Python `Set[WebSocket]`) is a duplicate-free `List Nat`.  Whether
`connection.send_json` raises for a given channel is modelled by a predicate
`fails : Nat → Bool` passed to the broadcast operation. -/

structure ConnectionManager where
  active_connections : List (String × List Nat)
  session_data : List (String × PyDict)
deriving DecidableEq, Repr

/-- `manager = ConnectionManager()`: both dictionaries start empty. -/
def emptyManager : ConnectionManager := { active_connections := [], session_data := [] }

/-- The set of channels currently registered for a session (empty when the
session id has no entry in `active_connections`). -/
def chans (m : ConnectionManager) (session_id : String) : List Nat :=
  (mapGet m.active_connections session_id).getD []

/-- `ConnectionManager.connect`: accept the socket (no state effect in the
model), create the session's set if absent, and add the channel to it.
Adding to a Python set is a no-op when the element is already present. -/
def ConnectionManager.connect (m : ConnectionManager) (websocket : Nat) (session_id : String) :
    ConnectionManager :=
  let conns :=
    match mapGet m.active_connections session_id with
    | some s => s
    | Option.none => []
  let conns' := if websocket ∈ conns then conns else conns ++ [websocket]
  { m with active_connections := mapSet m.active_connections session_id conns' }

/-- `ConnectionManager.disconnect`: `discard` the channel from the session's
set, and delete the session's entry when the set becomes empty. -/
def ConnectionManager.disconnect (m : ConnectionManager) (websocket : Nat) (session_id : String) :
    ConnectionManager :=
  match mapGet m.active_connections session_id with
  | Option.none => m
  | some conns =>
    let conns' := conns.erase websocket
    if conns' = [] then
      { m with active_connections := mapDel m.active_connections session_id }
    else
      { m with active_connections := mapSet m.active_connections session_id conns' }

/-- `ConnectionManager.broadcast_to_session`: if the session has registered
channels, attempt to send the message to each of them; a channel whose send
raises is collected and, after the loop, disconnected.  Returns the updated
manager together with the list of (channel, message) deliveries that
succeeded, in iteration order. -/
def ConnectionManager.broadcast_to_session (m : ConnectionManager) (fails : Nat → Bool)
    (session_id : String) (message : Event) : ConnectionManager × List (Nat × Event) :=
  match mapGet m.active_connections session_id with
  | Option.none => (m, [])
  | some conns =>
    let delivered := (conns.filter (fun c => !fails c)).map (fun c => (c, message))
    let disconnected := conns.filter (fun c => fails c)
    (disconnected.foldl (fun acc c => acc.disconnect c session_id) m, delivered)

/-- The record committed to `manager.session_data` by `update_session_status`:
the Python dict `{"status": status, **data}`. -/
def storedRecord (status : String) (data : PyDict) : PyDict :=
  data.foldl (fun d kv => mapSet d kv.1 kv.2) [("status", PyVal.str status)]

/-- `update_session_status` (`app/websocket.py`): build the status event,
overwrite the session's entry in the store with `{"status": status, **data}`,
and broadcast the event to all connections of the session. -/
def update_session_status (fails : Nat → Bool) (m : ConnectionManager)
    (session_id status : String) (data : PyDict) : ConnectionManager × List (Nat × Event) :=
  let update_data : Event :=
    { type := "status", sessionId := session_id, status := status, data := data }
  let m' := { m with session_data := mapSet m.session_data session_id (storedRecord status data) }
  m'.broadcast_to_session fails session_id update_data

/-- Well-formedness: every channel list represents a Python set, i.e. has no
duplicates, and the keys of both dictionaries are unique. -/
def WF (m : ConnectionManager) : Prop :=
  (∀ s, (chans m s).Nodup) ∧ (m.active_connections.map Prod.fst).Nodup

/-! ### Basic lemmas about the registry operations -/

theorem mem_keys_mapSet {α : Type} (m : List (String × α)) (k x : String) (v : α) :
    x ∈ (mapSet m k v).map Prod.fst ↔ x ∈ m.map Prod.fst ∨ x = k := by
  induction m with
  | nil => simp [mapSet, eq_comm]
  | cons p rest ih =>
    obtain ⟨q, w⟩ := p
    by_cases hq : q = k
    · subst hq
      simp [mapSet, eq_comm]
      tauto
    · simp [mapSet, hq, ih]
      tauto

theorem keys_mapSet_nodup {α : Type} (m : List (String × α)) (k : String) (v : α)
    (hm : (m.map Prod.fst).Nodup) : ((mapSet m k v).map Prod.fst).Nodup := by
  induction m with
  | nil => simp [mapSet]
  | cons p rest ih =>
    obtain ⟨q, w⟩ := p
    simp only [List.map_cons, List.nodup_cons] at hm
    by_cases hq : q = k
    · subst hq
      simpa [mapSet] using hm
    · simp only [mapSet, hq, if_false, List.map_cons, List.nodup_cons]
      refine ⟨?_, ih hm.2⟩
      rw [mem_keys_mapSet]
      rintro (hmem | hmem)
      · exact hm.1 hmem
      · exact hq hmem

theorem keys_mapDel_sublist {α : Type} (m : List (String × α)) (k : String) :
    List.Sublist ((mapDel m k).map Prod.fst) (m.map Prod.fst) := by
  induction m with
  | nil => simp [mapDel]
  | cons p rest ih =>
    obtain ⟨q, w⟩ := p
    by_cases hq : q = k
    · simp only [mapDel, hq, if_pos rfl, List.map_cons]
      exact (List.sublist_cons_self _ _).trans (List.Sublist.refl _)
    · simp only [mapDel, hq, if_false, List.map_cons]
      exact ih.cons₂ _

/-- `disconnect` only touches the connection registry. -/
theorem session_data_disconnect (m : ConnectionManager) (y : Nat) (sid : String) :
    (m.disconnect y sid).session_data = m.session_data := by
  unfold ConnectionManager.disconnect
  cases mapGet m.active_connections sid with
  | none => rfl
  | some conns =>
    simp only []
    split <;> rfl

/-- Folding `disconnect` over a list of channels only touches the registry. -/
theorem session_data_foldl_disconnect (L : List Nat) (m : ConnectionManager) (sid : String) :
    (L.foldl (fun acc c => acc.disconnect c sid) m).session_data = m.session_data := by
  induction L generalizing m with
  | nil => rfl
  | cons c L ih => rw [List.foldl_cons, ih, session_data_disconnect]

/-- `broadcast_to_session` never changes the session store. -/
theorem session_data_broadcast (m : ConnectionManager) (fails : Nat → Bool)
    (sid : String) (msg : Event) :
    (m.broadcast_to_session fails sid msg).1.session_data = m.session_data := by
  unfold ConnectionManager.broadcast_to_session
  cases mapGet m.active_connections sid with
  | none => rfl
  | some conns => exact session_data_foldl_disconnect _ _ _

/-- The session store after `update_session_status`: exactly the session's
entry is overwritten with the committed record. -/
theorem session_data_update (fails : Nat → Bool) (m : ConnectionManager)
    (sid status : String) (data : PyDict) :
    (update_session_status fails m sid status data).1.session_data
      = mapSet m.session_data sid (storedRecord status data) := by
  unfold update_session_status
  exact session_data_broadcast _ _ _ _

/-- Effect of `disconnect` on its own session's channel set. -/
theorem chans_disconnect_self (m : ConnectionManager) (y : Nat) (sid : String)
    (hWF : WF m) : chans (m.disconnect y sid) sid = (chans m sid).erase y := by
  unfold ConnectionManager.disconnect
  cases hc : mapGet m.active_connections sid with
  | none => simp [chans, hc]
  | some conns =>
    simp only []
    by_cases he : conns.erase y = []
    · simp only [he, if_pos rfl]
      have : mapGet (mapDel m.active_connections sid) sid = Option.none :=
        mapGet_mapDel_self _ _ hWF.2
      simp [chans, this, hc, he]
    · simp only [he, if_neg he]
      simp [chans, mapGet_mapSet_self, hc]

/-- `disconnect` leaves other sessions' channel sets unchanged. -/
theorem chans_disconnect_other (m : ConnectionManager) (y : Nat) (sid s : String)
    (h : s ≠ sid) : chans (m.disconnect y sid) s = chans m s := by
  unfold ConnectionManager.disconnect
  cases hc : mapGet m.active_connections sid with
  | none => rfl
  | some conns =>
    simp only []
    split
    · simp [chans, mapGet_mapDel_ne _ _ _ h]
    · simp [chans, mapGet_mapSet_ne _ _ _ _ h]

/-- `disconnect` preserves well-formedness. -/
theorem WF_disconnect (m : ConnectionManager) (y : Nat) (sid : String)
    (hWF : WF m) : WF (m.disconnect y sid) := by
  constructor
  · intro s
    by_cases hs : s = sid
    · subst hs
      rw [chans_disconnect_self _ _ _ hWF]
      exact (hWF.1 s).erase y
    · rw [chans_disconnect_other _ _ _ _ hs]
      exact hWF.1 s
  · unfold ConnectionManager.disconnect
    cases hc : mapGet m.active_connections sid with
    | none => exact hWF.2
    | some conns =>
      simp only []
      split
      · exact (keys_mapDel_sublist _ _).nodup hWF.2
      · exact keys_mapSet_nodup _ _ _ hWF.2

/-- Folding `disconnect` preserves well-formedness. -/
theorem WF_foldl_disconnect (L : List Nat) (m : ConnectionManager) (sid : String)
    (hWF : WF m) : WF (L.foldl (fun acc c => acc.disconnect c sid) m) := by
  induction L generalizing m with
  | nil => exact hWF
  | cons c L ih => exact ih _ (WF_disconnect _ _ _ hWF)

/-- Membership in a session's channel set after a fold of `disconnect`s:
exactly the channels not disconnected remain. -/
theorem mem_chans_foldl_disconnect (L : List Nat) (m : ConnectionManager) (sid : String)
    (x : Nat) (hWF : WF m) :
    x ∈ chans (L.foldl (fun acc c => acc.disconnect c sid) m) sid
      ↔ x ∈ chans m sid ∧ x ∉ L := by
  induction L generalizing m with
  | nil => simp
  | cons c L ih =>
    rw [List.foldl_cons, ih _ (WF_disconnect _ _ _ hWF),
      chans_disconnect_self _ _ _ hWF, (hWF.1 sid).mem_erase_iff]
    simp only [List.mem_cons]
    tauto

/-- Unfolding of `broadcast_to_session` when the session has an entry. -/
theorem broadcast_eq_of_mapGet_some {m : ConnectionManager} {sid : String} {conns : List Nat}
    (fails : Nat → Bool) (msg : Event)
    (hm : mapGet m.active_connections sid = some conns) :
    m.broadcast_to_session fails sid msg =
      ((conns.filter (fun c => fails c)).foldl (fun acc c => acc.disconnect c sid) m,
       (conns.filter (fun c => !fails c)).map (fun c => (c, msg))) := by
  unfold ConnectionManager.broadcast_to_session
  rw [hm]

/-- Every channel that gets a delivery was registered for the session. -/
theorem broadcast_fst_mem_chans {m : ConnectionManager} {fails : Nat → Bool}
    {sid : String} {msg : Event} {x : Nat}
    (hx : x ∈ (m.broadcast_to_session fails sid msg).2.map Prod.fst) :
    x ∈ chans m sid := by
  cases hm : mapGet m.active_connections sid with
  | none =>
    unfold ConnectionManager.broadcast_to_session at hx
    rw [hm] at hx
    simp at hx
  | some conns =>
    rw [broadcast_eq_of_mapGet_some fails msg hm] at hx
    simp only [List.map_map] at hx
    have : x ∈ conns.filter (fun c => !fails c) := by simpa using hx
    have hmem := List.mem_of_mem_filter this
    simp [chans, hm, hmem]

/-- `broadcast_to_session` preserves well-formedness. -/
theorem WF_broadcast (m : ConnectionManager) (fails : Nat → Bool) (sid : String)
    (msg : Event) (hWF : WF m) : WF (m.broadcast_to_session fails sid msg).1 := by
  cases hm : mapGet m.active_connections sid with
  | none =>
    unfold ConnectionManager.broadcast_to_session
    rw [hm]
    exact hWF
  | some conns =>
    rw [broadcast_eq_of_mapGet_some fails msg hm]
    exact WF_foldl_disconnect _ _ _ hWF

/-- The registry entry for the session right after a `connect`. -/
theorem connect_mapGet_self (m : ConnectionManager) (y : Nat) (sid : String) :
    mapGet (m.connect y sid).active_connections sid
      = some (if y ∈ chans m sid then chans m sid else chans m sid ++ [y]) := by
  unfold ConnectionManager.connect
  cases hm : mapGet m.active_connections sid with
  | none => simp [chans, hm, mapGet_mapSet_self]
  | some conns => simp [chans, hm, mapGet_mapSet_self]

theorem chans_connect_self (m : ConnectionManager) (y : Nat) (sid : String) :
    chans (m.connect y sid) sid
      = if y ∈ chans m sid then chans m sid else chans m sid ++ [y] := by
  rw [chans, connect_mapGet_self]
  rfl

theorem nodup_chans_connect_self (m : ConnectionManager) (y : Nat) (sid : String)
    (hWF : WF m) : (chans (m.connect y sid) sid).Nodup := by
  rw [chans_connect_self]
  by_cases hmem : y ∈ chans m sid
  · simpa [hmem] using hWF.1 sid
  · simp only [hmem, if_false]
    refine List.nodup_append.2 ⟨hWF.1 sid, List.nodup_singleton y, ?_⟩
    intro a ha hay
    simp only [List.mem_singleton] at hay
    exact hmem (hay ▸ ha)

/-! ## Claim theorems: fan-out broadcaster -/

/-- C8: broadcasting to a session with no registered observers is a silent
no-op — it raises no error, delivers nothing, and leaves the manager (both
the connection registry and the session store) unchanged. -/
theorem no_observer_broadcast_noop (m : ConnectionManager) (fails : Nat → Bool)
    (sid : String) (msg : Event)
    (h : mapGet m.active_connections sid = Option.none) :
    m.broadcast_to_session fails sid msg = (m, []) := by
  unfold ConnectionManager.broadcast_to_session
  rw [h]

/-- Witness for C8 at a concrete input: the fresh manager has no observers
for session `s1`, and broadcasting there returns the manager unchanged with
no deliveries. -/
theorem no_observer_broadcast_noop_witness :
    mapGet emptyManager.active_connections "s1" = Option.none ∧
      emptyManager.broadcast_to_session (fun _ => false) "s1"
          { type := "status", sessionId := "s1", status := "pending", data := [] }
        = (emptyManager, []) :=
  ⟨rfl, no_observer_broadcast_noop emptyManager (fun _ => false) "s1"
    { type := "status", sessionId := "s1", status := "pending", data := [] } rfl⟩

/-- C1: the broadcaster is failure-isolating and self-healing.  If a channel
`c` registered for `sid` fails on send, then (1) every registered channel
whose send does not fail still receives the message, (2) `c` is unregistered
by the same broadcast call, and (3) a subsequent broadcast to the session
delivers to no channel that failed in the first broadcast. -/
theorem broadcast_self_healing (m : ConnectionManager) (hWF : WF m) (sid : String)
    (msg msg₂ : Event) (fails fails₂ : Nat → Bool) (c : Nat)
    (hc : c ∈ chans m sid) (hfail : fails c = true) :
    (∀ c', c' ∈ chans m sid → fails c' = false →
        (c', msg) ∈ (m.broadcast_to_session fails sid msg).2)
    ∧ c ∉ chans (m.broadcast_to_session fails sid msg).1 sid
    ∧ ∀ d, d ∈ chans m sid → fails d = true →
        d ∉ (((m.broadcast_to_session fails sid msg).1.broadcast_to_session
                fails₂ sid msg₂).2.map Prod.fst) := by
  cases hm : mapGet m.active_connections sid with
  | none => exact absurd hc (by simp [chans, hm])
  | some conns =>
    have hchans : chans m sid = conns := by simp [chans, hm]
    rw [hchans] at hc
    refine ⟨?_, ?_, ?_⟩
    · intro c' hmem hnf
      rw [hchans] at hmem
      rw [broadcast_eq_of_mapGet_some fails msg hm]
      exact List.mem_map_of_mem _ (List.mem_filter.2 ⟨hmem, by simp [hnf]⟩)
    · rw [broadcast_eq_of_mapGet_some fails msg hm]
      simp only
      rw [mem_chans_foldl_disconnect _ _ _ _ hWF]
      rintro ⟨-, habs⟩
      exact habs (List.mem_filter.2 ⟨hc, hfail⟩)
    · intro d hd hdf habs
      rw [hchans] at hd
      have hd₁ : d ∉ chans (m.broadcast_to_session fails sid msg).1 sid := by
        rw [broadcast_eq_of_mapGet_some fails msg hm]
        simp only
        rw [mem_chans_foldl_disconnect _ _ _ _ hWF]
        rintro ⟨-, hnot⟩
        exact hnot (List.mem_filter.2 ⟨hd, hdf⟩)
      exact hd₁ (broadcast_fst_mem_chans habs)

/-- A concrete well-formed manager with channels 0 and 1 observing session
`s1`, used by the witnesses. -/
def singletonManager : ConnectionManager :=
  { active_connections := [("s1", [0, 1])], session_data := [] }

theorem WF_singletonManager : WF singletonManager := by
  constructor
  · intro s
    by_cases h : "s1" = s
    · subst h
      simp [chans, singletonManager, mapGet]
    · simp [chans, singletonManager, mapGet, h]
  · simp [singletonManager, mapGet]

/-- Witness for C1 at a concrete input: channels 0 and 1 observe `s1`,
channel 0 fails on send; channel 1 still receives, channel 0 is pruned, and
a second broadcast reaches no previously failed channel. -/
theorem broadcast_self_healing_witness :
    0 ∈ chans singletonManager "s1" ∧ (fun n : Nat => n == 0) 0 = true ∧
    ((∀ c', c' ∈ chans singletonManager "s1" → (fun n : Nat => n == 0) c' = false →
        (c', { type := "status", sessionId := "s1", status := "generating", data := [] : Event })
          ∈ (singletonManager.broadcast_to_session (fun n => n == 0) "s1"
              { type := "status", sessionId := "s1", status := "generating", data := [] }).2)
      ∧ 0 ∉ chans (singletonManager.broadcast_to_session (fun n => n == 0) "s1"
              { type := "status", sessionId := "s1", status := "generating", data := [] }).1 "s1"
      ∧ ∀ d, d ∈ chans singletonManager "s1" → (fun n : Nat => n == 0) d = true →
          d ∉ (((singletonManager.broadcast_to_session (fun n => n == 0) "s1"
                  { type := "status", sessionId := "s1", status := "generating", data := [] }).1.broadcast_to_session
                  (fun _ => false) "s1"
                  { type := "status", sessionId := "s1", status := "ready", data := [] }).2.map Prod.fst)) :=
  ⟨by decide, rfl,
    broadcast_self_healing singletonManager WF_singletonManager "s1"
      { type := "status", sessionId := "s1", status := "generating", data := [] }
      { type := "status", sessionId := "s1", status := "ready", data := [] }
      (fun n => n == 0) (fun _ => false) 0 (by decide) rfl⟩

/-- C7: registration is idempotent with respect to fan-out.  Connecting the
same channel twice for a session leaves it registered exactly once, and a
broadcast then delivers the event to it exactly once. -/
theorem register_idempotent_single_delivery (m : ConnectionManager) (hWF : WF m)
    (sid : String) (c : Nat) (fails : Nat → Bool) (msg : Event)
    (hok : fails c = false) :
    (chans ((m.connect c sid).connect c sid) sid).count c = 1
    ∧ ((((m.connect c sid).connect c sid).broadcast_to_session fails sid msg).2.map
        Prod.fst).count c = 1 := by
  have hc₁ : c ∈ chans (m.connect c sid) sid := by
    rw [chans_connect_self]
    by_cases hmem : c ∈ chans m sid
    · simp [hmem]
    · simp [hmem]
  have hnd₁ : (chans (m.connect c sid) sid).Nodup := nodup_chans_connect_self _ _ _ hWF
  have hch₂ : chans ((m.connect c sid).connect c sid) sid = chans (m.connect c sid) sid := by
    rw [chans_connect_self, if_pos hc₁]
  constructor
  · rw [hch₂]
    exact List.count_eq_one_of_mem hnd₁ hc₁
  · have hm₂ : mapGet ((m.connect c sid).connect c sid).active_connections sid
        = some (chans (m.connect c sid) sid) := by
      rw [connect_mapGet_self, if_pos hc₁]
    rw [broadcast_eq_of_mapGet_some fails msg hm₂]
    have hrw : (((chans (m.connect c sid) sid).filter (fun x => !fails x)).map
          (fun x => (x, msg))).map Prod.fst
        = (chans (m.connect c sid) sid).filter (fun x => !fails x) := by
      simp [Function.comp_def]
    have hmemf : c ∈ (chans (m.connect c sid) sid).filter (fun x => !fails x) :=
      List.mem_filter.2 ⟨hc₁, by simp [hok]⟩
    simp only []
    rw [hrw]
    exact List.count_eq_one_of_mem (hnd₁.filter _) hmemf

/-- Witness for C7 at a concrete input: connecting channel 2 twice to `s1`
on the fresh manager registers it once, and a broadcast delivers once. -/
theorem register_idempotent_single_delivery_witness :
    (chans ((emptyManager.connect 2 "s1").connect 2 "s1") "s1").count 2 = 1
    ∧ ((((emptyManager.connect 2 "s1").connect 2 "s1").broadcast_to_session (fun _ => false)
          "s1" { type := "status", sessionId := "s1", status := "pending", data := [] }).2.map
        Prod.fst).count 2 = 1 :=
  register_idempotent_single_delivery emptyManager
    ⟨fun s => by simp [chans, emptyManager, mapGet], by simp [emptyManager, mapGet]⟩
    "s1" 2 (fun _ => false)
    { type := "status", sessionId := "s1", status := "pending", data := [] } rfl

/-! ## Claim theorems: session store (`update_session_status`) -/

/-- Keys never touched by the payload fold keep their value from the
initial dictionary. -/
theorem mapGet_foldl_mapSet_not_mem (l : PyDict) (init : PyDict) (k : String)
    (h : k ∉ l.map Prod.fst) :
    mapGet (l.foldl (fun d kv => mapSet d kv.1 kv.2) init) k = mapGet init k := by
  induction l generalizing init with
  | nil => rfl
  | cons kv rest ih =>
    simp only [List.map_cons, List.mem_cons, not_or] at h
    rw [List.foldl_cons, ih _ h.2, mapGet_mapSet_ne _ _ _ _ h.1]

/-- C2 counterexample: `update_session_status` on a session id absent from
the store does not fail and does create an entry for it — refuting, at the
concrete input of an empty store and id `s1`, the claim that the update
fails with NotFound and leaves the store without an entry for that id. -/
theorem update_nonexistent_creates_entry_counterexample :
    mapGet emptyManager.session_data "s1" = Option.none ∧
    mapGet (update_session_status (fun _ => false) emptyManager "s1" "pending"
        []).1.session_data "s1"
      = some [("status", PyVal.str "pending")] :=
  ⟨rfl, rfl⟩

/-- C2 (amended): updating a session id that has no entry does not fail —
the operation is an upsert that creates the entry with the committed record
`{"status": status, **data}`, and every other session's entry is unchanged. -/
theorem update_nonexistent_upserts (m : ConnectionManager) (fails : Nat → Bool)
    (sid status : String) (data : PyDict)
    (h : mapGet m.session_data sid = Option.none) :
    mapGet (update_session_status fails m sid status data).1.session_data sid
      = some (storedRecord status data)
    ∧ ∀ sid', sid' ≠ sid →
        mapGet (update_session_status fails m sid status data).1.session_data sid'
          = mapGet m.session_data sid' := by
  rw [session_data_update]
  exact ⟨mapGet_mapSet_self _ _ _, fun sid' h' => mapGet_mapSet_ne _ _ _ _ h'⟩

/-- Witness for the amended C2 at a concrete input: the empty store has no
entry for `s1`; the update creates one and touches nothing else. -/
theorem update_nonexistent_upserts_witness :
    mapGet emptyManager.session_data "s1" = Option.none ∧
    (mapGet (update_session_status (fun _ => false) emptyManager "s1" "pending"
          [("progress", PyVal.int 0)]).1.session_data "s1"
        = some (storedRecord "pending" [("progress", PyVal.int 0)])
      ∧ ∀ sid', sid' ≠ "s1" →
          mapGet (update_session_status (fun _ => false) emptyManager "s1" "pending"
              [("progress", PyVal.int 0)]).1.session_data sid'
            = mapGet emptyManager.session_data sid') :=
  ⟨rfl, update_nonexistent_upserts emptyManager (fun _ => false) "s1" "pending"
    [("progress", PyVal.int 0)] rfl⟩

/-- A manager whose store already holds a session with an auxiliary payload
key, used to exhibit the replace-not-merge behaviour. -/
def mergeTestManager : ConnectionManager :=
  { active_connections := [],
    session_data :=
      [("s1", [("status", PyVal.str "generating"), ("tavus_replica_id", PyVal.str "r1")])] }

/-- C3 counterexample: the key `tavus_replica_id`, present in the stored
payload before the update and absent from the update's payload, is dropped
by the update — refuting the claim that unspecified keys keep their
previous value. -/
theorem update_replaces_payload_counterexample :
    mapGet ((mapGet mergeTestManager.session_data "s1").getD []) "tavus_replica_id"
      = some (PyVal.str "r1")
    ∧ mapGet ((mapGet (update_session_status (fun _ => false) mergeTestManager "s1" "ready"
          [("progress", PyVal.int 100)]).1.session_data "s1").getD []) "tavus_replica_id"
      = Option.none :=
  ⟨rfl, rfl⟩

/-- C3 (amended): `update_session_status` replaces the stored record
wholesale — after the update the stored record is exactly
`{"status": status, **data}`, and any key absent from the new payload
(other than `status`) is absent from the stored record, whatever was stored
before. -/
theorem update_replaces_payload (m : ConnectionManager) (fails : Nat → Bool)
    (sid status : String) (data : PyDict) :
    mapGet (update_session_status fails m sid status data).1.session_data sid
      = some (storedRecord status data)
    ∧ ∀ k, k ∉ data.map Prod.fst → k ≠ "status" →
        mapGet (storedRecord status data) k = Option.none := by
  constructor
  · rw [session_data_update]
    exact mapGet_mapSet_self _ _ _
  · intro k hk hks
    rw [storedRecord, mapGet_foldl_mapSet_not_mem _ _ _ hk]
    simp [mapGet, Ne.symm hks]

/-! ## Claim theorem: status-query endpoint (`GET /avatar/status/{sessionId}`) -/

/-- Outcome of a FastAPI handler: a response value or an HTTPException with
a status code and detail. -/
inductive HTTPResult (α : Type) where
  | ok : α → HTTPResult α
  | httpError : Nat → String → HTTPResult α
deriving DecidableEq, Repr

/-- The `AvatarStatusResponse` schema (`app/schemas/avatar.py`). -/
structure AvatarStatusResponse where
  sessionId : String
  status : String
  progress : Option ℚ
  videoUrl : Option String
  audioUrl : Option String
  error : Option String
deriving DecidableEq, Repr

/-- `get_avatar_status` (`app/routers/avatar.py`): the handler never
consults the session store; it unconditionally returns a mock snapshot with
status `ready`, progress 100 and a placeholder video URL. -/
def get_avatar_status (session_id : String) (_manager : ConnectionManager) :
    HTTPResult AvatarStatusResponse :=
  HTTPResult.ok
    { sessionId := session_id, status := "ready", progress := some 100,
      videoUrl := some "https://example.com/video.mp4",
      audioUrl := Option.none, error := Option.none }

/-- C4 (code bug): the status endpoint does not return the stored snapshot
and never returns 404.  At the concrete inputs: for an id absent from the
store it answers 200/ready instead of not-found, and for a stored session
whose committed status is `error` it still answers the mock `ready`
snapshot. -/
theorem get_avatar_status_ignores_store :
    (mapGet emptyManager.session_data "missing" = Option.none
      ∧ get_avatar_status "missing" emptyManager
          = HTTPResult.ok
              { sessionId := "missing", status := "ready", progress := some 100,
                videoUrl := some "https://example.com/video.mp4",
                audioUrl := Option.none, error := Option.none })
    ∧ (mapGet mergeTestManager.session_data "s1"
          = some [("status", PyVal.str "generating"), ("tavus_replica_id", PyVal.str "r1")]
      ∧ get_avatar_status "s1" mergeTestManager
          = HTTPResult.ok
              { sessionId := "s1", status := "ready", progress := some 100,
                videoUrl := some "https://example.com/video.mp4",
                audioUrl := Option.none, error := Option.none }) :=
  ⟨⟨rfl, rfl⟩, ⟨rfl, rfl⟩⟩

/-! ## Session Orchestrator (`_process_avatar_generation`, `app/routers/avatar.py`)

The orchestrator calls two provider adapters: `tavus_service.generate_avatar`
and a synchronous `livekit_service.create_room`.  The module-level service
singletons that `app/routers/avatar.py` imports are not among the source
files (the repository carries alternate implementations of both services);
their result shapes are modelled from the spec, and each call's outcome
(success value or raised error message) is a parameter of the run. -/

/-- Modelled from the spec: the result of the avatar-provider adapter call
`tavus_service.generate_avatar(text)`, whose implementation (the
module-level `tavus_service` singleton imported by `app/routers/avatar.py`)
is missing from the sources.  Spec contract:
`startGeneration(text) -> {jobRef, providerMetadata} | ProviderError`; the
orchestrator reads the opaque job reference (`tavus_replica_id`) and the
generated artifact reference (`video_url`). -/
structure GenResult where
  tavus_replica_id : String
  video_url : String
deriving DecidableEq, Repr

/-- Modelled from the spec: the result of the room-provider adapter call
`livekit_service.create_room(name)` in the variant used by
`app/routers/avatar.py` (missing from the sources; the variant under
`app/services/livekit_service.py` has a different result shape).  Spec
contract: `createRoom(name) -> {roomName, roomUrl} | ProviderError`; the
orchestrator reads `room_name` and the connection `url`. -/
structure RoomResult where
  room_name : String
  url : String
deriving DecidableEq, Repr

/-- The body of `_process_avatar_generation`, as a function of the two
adapter outcomes: the list of `(status, data)` updates it commits and
broadcasts (in order), paired with the list of room names it asks the room
provider to create.  The generation failure is caught by the surrounding
`except`, which commits an `error` update with the error text; a room
provider failure is caught by the same handler after the room call. -/
def processRun (session_id : String) (gen : Except String GenResult)
    (room : Except String RoomResult) :
    List (String × PyDict) × List String :=
  let u1 := ("generating", [("progress", PyVal.int 0)])
  match gen with
  | Except.error e => ([u1, ("error", [("error", PyVal.str e)])], [])
  | Except.ok g =>
    let u2 := ("generating",
      [("progress", PyVal.int 50), ("tavus_replica_id", PyVal.str g.tavus_replica_id)])
    match room with
    | Except.error e =>
      ([u1, u2, ("error", [("error", PyVal.str e)])], ["avatar_" ++ session_id])
    | Except.ok r =>
      ([u1, u2,
        ("ready",
          [("progress", PyVal.int 100), ("video_url", PyVal.str g.video_url),
           ("room_name", PyVal.str r.room_name), ("livekit_url", PyVal.str r.url)])],
       ["avatar_" ++ session_id])

/-- A full session run: `generate_avatar` commits `pending` synchronously,
then the background task `_process_avatar_generation` runs. -/
def sessionRun (session_id : String) (gen : Except String GenResult)
    (room : Except String RoomResult) :
    List (String × PyDict) × List String :=
  (("pending", ([] : PyDict)) :: (processRun session_id gen room).1,
   (processRun session_id gen room).2)

/-- Drive a list of `(status, data)` updates through `update_session_status`
on a manager, collecting each step's deliveries. -/
def runUpdates (fails : Nat → Bool) (session_id : String) :
    ConnectionManager → List (String × PyDict) →
      ConnectionManager × List (List (Nat × Event))
  | m, [] => (m, [])
  | m, (st, d) :: rest =>
    let step := update_session_status fails m session_id st d
    let next := runUpdates fails session_id step.1 rest
    (next.1, step.2 :: next.2)

/-- The session store after a run of updates: a left fold of overwrites. -/
theorem runUpdates_session_data (fails : Nat → Bool) (session_id : String)
    (m : ConnectionManager) (updates : List (String × PyDict)) :
    (runUpdates fails session_id m updates).1.session_data
      = updates.foldl (fun sd u => mapSet sd session_id (storedRecord u.1 u.2))
          m.session_data := by
  induction updates generalizing m with
  | nil => rfl
  | cons u rest ih =>
    obtain ⟨st, d⟩ := u
    rw [List.foldl_cons]
    show (runUpdates fails session_id _ rest).1.session_data = _
    rw [ih, session_data_update]

/-- C5: if the generation provider call raises with message `e`, the final
stored snapshot for the session is `{"status": "error", "error": e}` and
the room provider is never asked to create a room for the session. -/
theorem generation_failure_ends_in_error (m : ConnectionManager) (fails : Nat → Bool)
    (sid e : String) (room : Except String RoomResult) :
    mapGet (runUpdates fails sid m (sessionRun sid (Except.error e) room).1).1.session_data sid
      = some [("status", PyVal.str "error"), ("error", PyVal.str e)]
    ∧ (sessionRun sid (Except.error e) room).2 = [] := by
  refine ⟨?_, rfl⟩
  rw [runUpdates_session_data]
  show mapGet (mapSet _ sid (storedRecord "error" [("error", PyVal.str e)])) sid = _
  rw [mapGet_mapSet_self]
  rfl

/-- C6: on the fully successful path the final stored snapshot has status
`ready`, progress 100, the artifact URL and the room name in its payload;
that snapshot is the last update broadcast, and exactly one room — named
after the session — was requested. -/
theorem success_ends_ready (m : ConnectionManager) (fails : Nat → Bool)
    (sid : String) (g : GenResult) (r : RoomResult) :
    mapGet (runUpdates fails sid m
        (sessionRun sid (Except.ok g) (Except.ok r)).1).1.session_data sid
      = some [("status", PyVal.str "ready"), ("progress", PyVal.int 100),
              ("video_url", PyVal.str g.video_url), ("room_name", PyVal.str r.room_name),
              ("livekit_url", PyVal.str r.url)]
    ∧ (sessionRun sid (Except.ok g) (Except.ok r)).1.getLast?
      = some ("ready",
          [("progress", PyVal.int 100), ("video_url", PyVal.str g.video_url),
           ("room_name", PyVal.str r.room_name), ("livekit_url", PyVal.str r.url)])
    ∧ (sessionRun sid (Except.ok g) (Except.ok r)).2 = ["avatar_" ++ sid] := by
  refine ⟨?_, rfl, rfl⟩
  rw [runUpdates_session_data]
  show mapGet (mapSet _ sid (storedRecord "ready" _)) sid = _
  rw [mapGet_mapSet_self]
  rfl

/-! ## Ordering of events as seen by one observer (C9) -/

/-- Index of a status in the lifecycle order `pending → generating → ready`,
with `error` as the other terminal state. -/
def statusIndex : String → Nat
  | "pending" => 0
  | "generating" => 1
  | "ready" => 2
  | _ => 3

/-- The events of a delivery list that went to channel `o`, in order. -/
def deliveredTo (o : Nat) (l : List (Nat × Event)) : List Event :=
  (l.filter (fun p => p.1 == o)).map Prod.snd

/-- The events channel `o` receives over a whole run of updates. -/
def receivedBy (o : Nat) (fails : Nat → Bool) (session_id : String)
    (m : ConnectionManager) (updates : List (String × PyDict)) : List Event :=
  ((runUpdates fails session_id m updates).2.map (deliveredTo o)).flatten

theorem deliveredTo_cons (o : Nat) (p : Nat × Event) (L : List (Nat × Event)) :
    deliveredTo o (p :: L)
      = if p.1 = o then p.2 :: deliveredTo o L else deliveredTo o L := by
  by_cases h : p.1 = o <;> simp [deliveredTo, List.filter_cons, h]

/-- A broadcast's delivery list reaches a given channel at most once (the
channel set has no duplicates): the channel's slice of the deliveries is
either empty or the single message. -/
theorem deliveredTo_map_pair (o : Nat) (msg : Event) (l : List Nat) (h : l.Nodup) :
    deliveredTo o (l.map (fun c => (c, msg))) = if o ∈ l then [msg] else [] := by
  induction l with
  | nil => rfl
  | cons a l ih =>
    simp only [List.nodup_cons] at h
    rw [List.map_cons, deliveredTo_cons, ih h.2]
    by_cases ha : a = o
    · subst ha
      simp [h.1]
    · simp [ha, Ne.symm ha]

/-- `update_session_status` preserves well-formedness. -/
theorem WF_update (fails : Nat → Bool) (m : ConnectionManager) (sid st : String)
    (d : PyDict) (hWF : WF m) : WF (update_session_status fails m sid st d).1 := by
  unfold update_session_status
  exact WF_broadcast _ _ _ _ ⟨hWF.1, hWF.2⟩

/-- One broadcast delivers to a given channel either nothing or exactly the
broadcast message. -/
theorem deliveredTo_broadcast (m : ConnectionManager) (fails : Nat → Bool)
    (sid : String) (msg : Event) (o : Nat) (hnd : (chans m sid).Nodup) :
    deliveredTo o (m.broadcast_to_session fails sid msg).2 = []
    ∨ deliveredTo o (m.broadcast_to_session fails sid msg).2 = [msg] := by
  cases hm : mapGet m.active_connections sid with
  | none =>
    left
    unfold ConnectionManager.broadcast_to_session
    rw [hm]
    rfl
  | some conns =>
    have hnd₂ : conns.Nodup := by
      rw [chans, hm] at hnd
      exact hnd
    rw [broadcast_eq_of_mapGet_some _ _ hm]
    simp only
    rw [deliveredTo_map_pair _ _ _ (hnd₂.filter _)]
    by_cases hmem : o ∈ conns.filter (fun c => !fails c)
    · right
      rw [if_pos hmem]
    · left
      rw [if_neg hmem]

/-- One step of the run delivers to a given channel either nothing or
exactly the step's event. -/
theorem deliveredTo_update (fails : Nat → Bool) (m : ConnectionManager)
    (sid st : String) (d : PyDict) (o : Nat) (hWF : WF m) :
    deliveredTo o (update_session_status fails m sid st d).2 = []
    ∨ deliveredTo o (update_session_status fails m sid st d).2
        = [{ type := "status", sessionId := sid, status := st, data := d }] := by
  unfold update_session_status
  exact deliveredTo_broadcast _ fails sid _ o (hWF.1 sid)

theorem receivedBy_cons (o : Nat) (fails : Nat → Bool) (sid : String)
    (m : ConnectionManager) (st : String) (d : PyDict) (rest : List (String × PyDict)) :
    receivedBy o fails sid m ((st, d) :: rest)
      = deliveredTo o (update_session_status fails m sid st d).2
        ++ receivedBy o fails sid (update_session_status fails m sid st d).1 rest := by
  simp [receivedBy, runUpdates]

/-- What one channel receives over a run is a sublist of the run's events,
in order. -/
theorem receivedBy_sublist (o : Nat) (fails : Nat → Bool) (sid : String)
    (updates : List (String × PyDict)) :
    ∀ m : ConnectionManager, WF m →
      List.Sublist (receivedBy o fails sid m updates)
        (updates.map (fun u =>
          ({ type := "status", sessionId := sid, status := u.1, data := u.2 } : Event))) := by
  induction updates with
  | nil =>
    intro m _
    simp [receivedBy, runUpdates]
  | cons u rest ih =>
    intro m hWF
    obtain ⟨st, d⟩ := u
    rw [receivedBy_cons, List.map_cons]
    rcases deliveredTo_update fails m sid st d o hWF with h | h
    · rw [h, List.nil_append]
      exact (ih _ (WF_update fails m sid st d hWF)).cons _
    · rw [h, List.singleton_append]
      exact (ih _ (WF_update fails m sid st d hWF)).cons₂ _

/-- C9: for any adapter outcomes, the statuses committed and broadcast over
a session run form one of the legal progressions
`pending, generating, generating, ready` /
`pending, generating, generating, error` / `pending, generating, error`; no
update is issued after a terminal status; and the status indices of the
events any one observer receives are monotonically non-decreasing. -/
theorem status_progression_monotone (m : ConnectionManager) (hWF : WF m)
    (fails : Nat → Bool) (sid : String) (o : Nat)
    (gen : Except String GenResult) (room : Except String RoomResult) :
    ((sessionRun sid gen room).1.map Prod.fst
        = ["pending", "generating", "generating", "ready"]
      ∨ (sessionRun sid gen room).1.map Prod.fst
        = ["pending", "generating", "generating", "error"]
      ∨ (sessionRun sid gen room).1.map Prod.fst
        = ["pending", "generating", "error"])
    ∧ (∀ st ∈ ((sessionRun sid gen room).1.map Prod.fst).dropLast,
        st ≠ "ready" ∧ st ≠ "error")
    ∧ ((receivedBy o fails sid m (sessionRun sid gen room).1).map
        (fun ev => statusIndex ev.status)).Pairwise (· ≤ ·) := by
  have hmap := (receivedBy_sublist o fails sid (sessionRun sid gen room).1 m hWF).map
    (fun ev => statusIndex ev.status)
  rcases gen with e | g
  · refine ⟨Or.inr (Or.inr rfl), ?_, ?_⟩
    · show ∀ st ∈ (["pending", "generating", "error"].dropLast),
        st ≠ "ready" ∧ st ≠ "error"
      decide
    · refine List.Pairwise.sublist hmap ?_
      show List.Pairwise (· ≤ ·) [0, 1, 3]
      decide
  · rcases room with e | r
    · refine ⟨Or.inr (Or.inl rfl), ?_, ?_⟩
      · show ∀ st ∈ (["pending", "generating", "generating", "error"].dropLast),
          st ≠ "ready" ∧ st ≠ "error"
        decide
      · refine List.Pairwise.sublist hmap ?_
        show List.Pairwise (· ≤ ·) [0, 1, 1, 3]
        decide
    · refine ⟨Or.inl rfl, ?_, ?_⟩
      · show ∀ st ∈ (["pending", "generating", "generating", "ready"].dropLast),
          st ≠ "ready" ∧ st ≠ "error"
        decide
      · refine List.Pairwise.sublist hmap ?_
        show List.Pairwise (· ≤ ·) [0, 1, 1, 2]
        decide

/-- Witness for C9 at a concrete input: the manager with channels 0 and 1
observing `s1`, channel 0 failing on send, observer 1, and a successful
run. -/
theorem status_progression_monotone_witness :
    ((sessionRun "s1" (Except.ok ⟨"r1", "a1"⟩) (Except.ok ⟨"room_1", "wss://lk"⟩)).1.map
          Prod.fst
        = ["pending", "generating", "generating", "ready"]
      ∨ (sessionRun "s1" (Except.ok ⟨"r1", "a1"⟩) (Except.ok ⟨"room_1", "wss://lk"⟩)).1.map
          Prod.fst
        = ["pending", "generating", "generating", "error"]
      ∨ (sessionRun "s1" (Except.ok ⟨"r1", "a1"⟩) (Except.ok ⟨"room_1", "wss://lk"⟩)).1.map
          Prod.fst
        = ["pending", "generating", "error"])
    ∧ (∀ st ∈ (((sessionRun "s1" (Except.ok ⟨"r1", "a1"⟩)
          (Except.ok ⟨"room_1", "wss://lk"⟩)).1.map Prod.fst).dropLast),
        st ≠ "ready" ∧ st ≠ "error")
    ∧ ((receivedBy 1 (fun n => n == 0) "s1" singletonManager
          (sessionRun "s1" (Except.ok ⟨"r1", "a1"⟩)
            (Except.ok ⟨"room_1", "wss://lk"⟩)).1).map
        (fun ev => statusIndex ev.status)).Pairwise (· ≤ ·) :=
  status_progression_monotone singletonManager WF_singletonManager
    (fun n => n == 0) "s1" 1 (Except.ok ⟨"r1", "a1"⟩) (Except.ok ⟨"room_1", "wss://lk"⟩)

/-! ## Job recommendations (`app/services/job_service.py`)

The embedding keeps the `Job` fields `get_recommendations` reads or copies:
`matchPercentage` (an optional float with exact decimal values, embedded as
`Option ℚ`), `featured`, `matchBreakdown` and `fitExplanation`, plus the
`id` for identification.  The remaining `Job` fields (title, company,
salary, tags, ...) are carried through `get_recommendations` untouched and
are not part of any property below. -/

structure MatchBreakdown where
  education : ℚ
  skills : ℚ
  workExp : ℚ
  expLevel : ℚ
deriving DecidableEq, Repr

structure Job where
  id : String
  featured : Bool
  matchPercentage : Option ℚ
  matchBreakdown : Option MatchBreakdown
  fitExplanation : Option String
deriving DecidableEq, Repr

structure JobRecommendation where
  job : Job
  score : ℚ
  reason : String
  matchBreakdown : Option MatchBreakdown
  fitExplanation : Option String
deriving DecidableEq, Repr

/-- The static `MOCK_JOBS` collection (the fields of the embedding). -/
def MOCK_JOBS : List Job :=
  [{ id := "1", featured := false, matchPercentage := some 64,
     matchBreakdown := some { education := 70, skills := 60, workExp := 65, expLevel := 62 },
     fitExplanation := some "You have relevant experience in web development, though some specific skills may need development." },
   { id := "2", featured := true, matchPercentage := some 93,
     matchBreakdown := some { education := 95, skills := 92, workExp := 94, expLevel := 91 },
     fitExplanation := some "You have substantial experience in network infrastructure and distributed systems, making you an excellent fit for this role." },
   { id := "3", featured := true, matchPercentage := some 82,
     matchBreakdown := some { education := 85, skills := 80, workExp := 83, expLevel := 80 },
     fitExplanation := some "Your full-stack experience aligns well with the requirements, and your background in web development is highly relevant." },
   { id := "4", featured := false, matchPercentage := some 93,
     matchBreakdown := some { education := 93, skills := 80, workExp := 44, expLevel := 85 },
     fitExplanation := some "You have substantial experience as a UI/UX Designer, Interaction Designer, and User Research Specialist. Your role at Sohu aligns with designing interaction elements relevant to user experience design for digital products." },
   { id := "5", featured := true, matchPercentage := some 88,
     matchBreakdown := some { education := 90, skills := 85, workExp := 88, expLevel := 89 },
     fitExplanation := some "Your extensive full-stack experience and expertise in modern web technologies make you an ideal candidate for this senior role." },
   { id := "6", featured := true, matchPercentage := some 75,
     matchBreakdown := some { education := 78, skills := 72, workExp := 75, expLevel := 75 },
     fitExplanation := some "Your experience with AI/ML technologies and modern web development aligns well with this product engineering role." },
   { id := "7", featured := false, matchPercentage := some 79,
     matchBreakdown := some { education := 82, skills := 76, workExp := 80, expLevel := 78 },
     fitExplanation := some "Your backend development experience and knowledge of real-time systems make you a strong candidate for this position." },
   { id := "8", featured := false, matchPercentage := some 85,
     matchBreakdown := some { education := 87, skills := 83, workExp := 85, expLevel := 85 },
     fitExplanation := some "Your frontend expertise with Next.js and modern React development aligns perfectly with our requirements." }]

/-- The sort key: `x.matchPercentage or 0` (Python `or` maps both `None`
and `0.0` to `0`, which coincides with `getD 0`). -/
def sortKey (j : Job) : ℚ := j.matchPercentage.getD 0

/-- Stable insertion for a descending sort: an element moves left past
exactly the elements with a strictly smaller key, so elements with equal
keys keep their original relative order — the behaviour of Python's stable
`sorted(..., reverse=True)`. -/
def insertByKeyDesc (x : Job) : List Job → List Job
  | [] => [x]
  | y :: ys => if sortKey y ≤ sortKey x then x :: y :: ys else y :: insertByKeyDesc x ys

/-- `sorted(self.jobs, key=lambda x: x.matchPercentage or 0, reverse=True)`
as a stable insertion sort. -/
def sortByKeyDesc : List Job → List Job
  | [] => []
  | x :: xs => insertByKeyDesc x (sortByKeyDesc xs)

/-- The `reason` computed for one job, including Python truthiness: the
condition `job.matchPercentage and job.matchPercentage >= 90` is false when
the percentage is `None` or `0.0`. -/
def recommendationReason (job : Job) : String :=
  let base :=
    match job.matchPercentage with
    | Option.none => "Good match"
    | some p => if p ≠ 0 ∧ 90 ≤ p then "Top matched" else "Good match"
  if job.featured then "Featured job" else base

/-- The `JobRecommendation` built for one sorted job. -/
def recommendationOf (job : Job) : JobRecommendation :=
  { job := job, score := job.matchPercentage.getD 0 / 100,
    reason := recommendationReason job,
    matchBreakdown := job.matchBreakdown, fitExplanation := job.fitExplanation }

/-- `JobService.get_recommendations`: sort by match percentage (highest
first, stable), truncate to `limit`, build recommendations, truncate
again. -/
def get_recommendations (limit : Nat) : List JobRecommendation :=
  let sorted_jobs := (sortByKeyDesc MOCK_JOBS).take limit
  let recommendations := sorted_jobs.map recommendationOf
  recommendations.take limit

theorem get_recommendations_eq_take (limit : Nat) :
    get_recommendations limit = ((sortByKeyDesc MOCK_JOBS).map recommendationOf).take limit := by
  show (((sortByKeyDesc MOCK_JOBS).take limit).map recommendationOf).take limit = _
  rw [List.map_take, List.take_take, min_self]

/-- The two reason computations coincide: the truthiness guard `p ≠ 0` in
the source is implied by `90 ≤ p`, and a missing percentage falls to
`Good match` on both sides. -/
theorem recommendationReason_eq (job : Job) :
    recommendationReason job
      = (if job.featured then "Featured job"
          else if 90 ≤ job.matchPercentage.getD 0 then "Top matched"
          else "Good match") := by
  unfold recommendationReason
  cases hp : job.matchPercentage with
  | none =>
    simp only [Option.getD_none]
    have h90 : ¬ ((90 : ℚ) ≤ 0) := by norm_num
    simp [h90]
  | some p =>
    simp only [Option.getD_some]
    by_cases h90 : (90 : ℚ) ≤ p
    · have hne : p ≠ 0 := by
        intro h
        rw [h] at h90
        norm_num at h90
      simp [h90, hne]
    · simp [h90]

/-- C10: `get_recommendations` returns at most `limit` recommendations,
ordered by non-increasing match percentage (a missing percentage counting
as 0); each recommendation's score is the job's match percentage divided by
100, and its reason is `Featured job` for featured jobs, otherwise
`Top matched` when the match percentage is at least 90 and `Good match`
otherwise. -/
theorem get_recommendations_spec (limit : Nat) :
    (get_recommendations limit).length ≤ limit
    ∧ ((get_recommendations limit).map
        (fun r => r.job.matchPercentage.getD 0)).Pairwise (fun a b => b ≤ a)
    ∧ ∀ r ∈ get_recommendations limit,
        r.score = r.job.matchPercentage.getD 0 / 100
        ∧ r.reason = (if r.job.featured then "Featured job"
            else if 90 ≤ r.job.matchPercentage.getD 0 then "Top matched"
            else "Good match") := by
  rw [get_recommendations_eq_take]
  refine ⟨List.length_take_le _ _, ?_, ?_⟩
  · rw [List.map_take]
    refine List.Pairwise.sublist (List.take_sublist _ _) ?_
    decide
  · have hall : ∀ r ∈ (sortByKeyDesc MOCK_JOBS).map recommendationOf,
        r.score = r.job.matchPercentage.getD 0 / 100
        ∧ r.reason = (if r.job.featured then "Featured job"
            else if 90 ≤ r.job.matchPercentage.getD 0 then "Top matched"
            else "Good match") := by
      intro r hr
      obtain ⟨job, -, rfl⟩ := List.mem_map.1 hr
      exact ⟨rfl, recommendationReason_eq job⟩
    exact fun r hr => hall r (List.mem_of_mem_take hr)

/-- Witness for C10 at the concrete default limit 10. -/
theorem get_recommendations_spec_witness :
    (get_recommendations 10).length ≤ 10
    ∧ ((get_recommendations 10).map
        (fun r => r.job.matchPercentage.getD 0)).Pairwise (fun a b => b ≤ a)
    ∧ ∀ r ∈ get_recommendations 10,
        r.score = r.job.matchPercentage.getD 0 / 100
        ∧ r.reason = (if r.job.featured then "Featured job"
            else if 90 ≤ r.job.matchPercentage.getD 0 then "Top matched"
            else "Good match") :=
  get_recommendations_spec 10

end JobNova
